import Mathlib

/-!
Shallow embedding of `chap4/mav_dynamics.py` (class `MavDynamics`) from the
mavsim_python repository, together with theorems settling the specification
claims about the RK4 integrator, the quaternion renormalization, the
aerodynamic force model, the propulsion model, the velocity-triangle
computation and the true-state view.

Python floats are embedded as real numbers; numpy vectors become functions
`Fin n → ℝ` and numpy matrices become `Matrix (Fin n) (Fin n) ℝ`.
-/

noncomputable section

/-- The immutable constant table `parameters.aerosonde_parameters` (external
`ParameterSet` component): every `MAV.*` name read by `mav_dynamics.py`. -/
structure MAVParams where
  mass : ℝ
  gravity : ℝ
  Jy : ℝ
  gamma1 : ℝ
  gamma2 : ℝ
  gamma3 : ℝ
  gamma4 : ℝ
  gamma5 : ℝ
  gamma6 : ℝ
  gamma7 : ℝ
  gamma8 : ℝ
  rho : ℝ
  S_wing : ℝ
  c : ℝ
  b : ℝ
  e : ℝ
  AR : ℝ
  M : ℝ
  alpha0 : ℝ
  C_L_0 : ℝ
  C_L_alpha : ℝ
  C_L_q : ℝ
  C_L_delta_e : ℝ
  C_D_p : ℝ
  C_D_q : ℝ
  C_D_delta_e : ℝ
  C_Y_0 : ℝ
  C_Y_beta : ℝ
  C_Y_p : ℝ
  C_Y_r : ℝ
  C_Y_delta_a : ℝ
  C_Y_delta_r : ℝ
  C_m_0 : ℝ
  C_m_alpha : ℝ
  C_m_q : ℝ
  C_m_delta_e : ℝ
  C_ell_0 : ℝ
  C_ell_beta : ℝ
  C_ell_p : ℝ
  C_ell_delta_a : ℝ
  C_ell_delta_r : ℝ
  C_n_0 : ℝ
  C_n_beta : ℝ
  C_n_p : ℝ
  C_n_delta_a : ℝ
  C_n_delta_r : ℝ
  V_max : ℝ
  C_Q0 : ℝ
  C_Q1 : ℝ
  C_Q2 : ℝ
  C_T0 : ℝ
  C_T1 : ℝ
  C_T2 : ℝ
  D_prop : ℝ
  KQ : ℝ
  R_motor : ℝ
  i0 : ℝ
  north0 : ℝ
  east0 : ℝ
  down0 : ℝ
  u0 : ℝ
  v0 : ℝ
  w0 : ℝ
  e0 : ℝ
  e1 : ℝ
  e2 : ℝ
  e3 : ℝ
  p0 : ℝ
  q0 : ℝ
  r0 : ℝ

/-- The control input `delta = (delta_a, delta_e, delta_r, delta_t)`. -/
structure ControlInput where
  aileron : ℝ
  elevator : ℝ
  rudder : ℝ
  throttle : ℝ

/-- The fields of the `MsgState` message assigned by `_update_true_state`. -/
structure TrueState where
  north : ℝ
  east : ℝ
  altitude : ℝ
  Va : ℝ
  alpha : ℝ
  beta : ℝ
  phi : ℝ
  theta : ℝ
  psi : ℝ
  Vg : ℝ
  gamma : ℝ
  chi : ℝ
  p : ℝ
  q : ℝ
  r : ℝ
  wn : ℝ
  we : ℝ

/-- The mutable members of a `MavDynamics` instance: `_ts_simulation`,
`_state` (13-vector), `_wind`, `_forces`, `_Va`, `_alpha`, `_beta`,
`true_state`. -/
structure Mav where
  ts_simulation : ℝ
  state : Fin 13 → ℝ
  wind : Fin 3 → ℝ
  forces : Fin 3 → ℝ
  Va : ℝ
  alpha : ℝ
  beta : ℝ
  true_state : TrueState

/-- Modelled from the spec: the two-argument arctangent (`np.arctan2`) used by
the external RotationMath component and by `_update_true_state`; its exact
branch values are never load-bearing for the claims below. -/
def atan2 (y x : ℝ) : ℝ :=
  if 0 < x then Real.arctan (y / x)
  else if x < 0 then
    (if 0 ≤ y then Real.arctan (y / x) + Real.pi else Real.arctan (y / x) - Real.pi)
  else (if 0 < y then Real.pi / 2 else if y < 0 then -(Real.pi / 2) else 0)

/-- Modelled from the spec: `quaternionToRotationMatrix` of the external
RotationMath component (`tools.rotations.Quaternion2Rotation`): the standard
scalar-first unit-quaternion to body-to-inertial rotation matrix. -/
def Quaternion2Rotation (qv : Fin 4 → ℝ) : Matrix (Fin 3) (Fin 3) ℝ :=
  let q0 := qv 0
  let q1 := qv 1
  let q2 := qv 2
  let q3 := qv 3
  Matrix.of
    ![![q0 ^ 2 + q1 ^ 2 - q2 ^ 2 - q3 ^ 2, 2 * (q1 * q2 - q0 * q3), 2 * (q1 * q3 + q0 * q2)],
      ![2 * (q1 * q2 + q0 * q3), q0 ^ 2 - q1 ^ 2 + q2 ^ 2 - q3 ^ 2, 2 * (q2 * q3 - q0 * q1)],
      ![2 * (q1 * q3 - q0 * q2), 2 * (q2 * q3 + q0 * q1), q0 ^ 2 - q1 ^ 2 - q2 ^ 2 + q3 ^ 2]]

/-- Modelled from the spec: `quaternionToEuler` of the external RotationMath
component (`tools.rotations.Quaternion2Euler`), standard scalar-first
quaternion to (roll, pitch, yaw). Its exact values are never load-bearing
for the claims below. -/
def Quaternion2Euler (qv : Fin 4 → ℝ) : ℝ × ℝ × ℝ :=
  (atan2 (2 * (qv 0 * qv 1 + qv 2 * qv 3)) (qv 0 ^ 2 + qv 3 ^ 2 - qv 1 ^ 2 - qv 2 ^ 2),
   Real.arcsin (2 * (qv 0 * qv 2 - qv 1 * qv 3)),
   atan2 (2 * (qv 0 * qv 3 + qv 1 * qv 2)) (qv 0 ^ 2 + qv 1 ^ 2 - qv 2 ^ 2 - qv 3 ^ 2))

/-- `MavDynamics._derivatives(state, forces_moments)`: the 13-element
state-derivative vector. -/
def derivatives (P : MAVParams) (state : Fin 13 → ℝ) (forces_moments : Fin 6 → ℝ) :
    Fin 13 → ℝ :=
  let u := state 3
  let v := state 4
  let w := state 5
  let e0 := state 6
  let e1 := state 7
  let e2 := state 8
  let e3 := state 9
  let p := state 10
  let q := state 11
  let r := state 12
  let fx := forces_moments 0
  let fy := forces_moments 1
  let fz := forces_moments 2
  let l := forces_moments 3
  let m := forces_moments 4
  let n := forces_moments 5
  let quaternion : Fin 4 → ℝ := ![e0, e1, e2, e3]
  let Rb_i := Quaternion2Rotation quaternion
  let pos_dot := Rb_i.mulVec ![u, v, w]
  let north_dot := pos_dot 0
  let east_dot := pos_dot 1
  let down_dot := pos_dot 2
  let u_dot := (r * v - q * w) + (1 / P.mass) * fx
  let v_dot := (p * w - r * u) + (1 / P.mass) * fy
  let w_dot := (q * u - p * v) + (1 / P.mass) * fz
  let skew_sym : Matrix (Fin 4) (Fin 4) ℝ :=
    Matrix.of ![![0, -p, -q, -r], ![p, 0, r, -q], ![q, -r, 0, p], ![r, q, -p, 0]]
  let e_dot := (0.5 : ℝ) • skew_sym.mulVec quaternion
  let e0_dot := e_dot 0
  let e1_dot := e_dot 1
  let e2_dot := e_dot 2
  let e3_dot := e_dot 3
  let p_dot := P.gamma1 * p * q - P.gamma2 * q * r + P.gamma3 * l + P.gamma4 * n
  let q_dot := P.gamma5 * p * r - P.gamma6 * (p ^ 2 - r ^ 2) + (1 / P.Jy) * m
  let r_dot := P.gamma7 * p * q - P.gamma1 * q * r + P.gamma4 * l + P.gamma8 * n
  ![north_dot, east_dot, down_dot, u_dot, v_dot, w_dot,
    e0_dot, e1_dot, e2_dot, e3_dot, p_dot, q_dot, r_dot]

/-- The velocity vector relative to the airmass computed inside
`_update_velocity_data`: `v_air = state[3:6] - (Rb_i @ steady_state + gust)`. -/
def relWind (state : Fin 13 → ℝ) (wind : Fin 6 → ℝ) : Fin 3 → ℝ :=
  let steady_state : Fin 3 → ℝ := ![wind 0, wind 1, wind 2]
  let gust : Fin 3 → ℝ := ![wind 3, wind 4, wind 5]
  let Rb_i := Quaternion2Rotation ![state 6, state 7, state 8, state 9]
  let wind_body_frame := Rb_i.mulVec steady_state + gust
  ![state 3, state 4, state 5] - wind_body_frame

/-- `MavDynamics._update_velocity_data(wind)`: returns the triple
`(_Va, _alpha, _beta)` computed from the (already updated) state and the
supplied wind. -/
def update_velocity_data (state : Fin 13 → ℝ) (wind : Fin 6 → ℝ) : ℝ × ℝ × ℝ :=
  let v_air := relWind state wind
  let ur := v_air 0
  let vr := v_air 1
  let wr := v_air 2
  let Va := Real.sqrt (ur ^ 2 + vr ^ 2 + wr ^ 2)
  (Va,
   if ur = 0 then 0 else Real.arctan (wr / ur),
   if Va = 0 then 0 else Real.arcsin (vr / Va))

/-- The lift force exactly as the source computes it (line `F_lift = ...`):
note that `CL` is MULTIPLIED by the pitch-rate term. -/
def F_lift (P : MAVParams) (CL q_dynamic Va q elevator : ℝ) : ℝ :=
  q_dynamic * (CL * (P.C_L_q * 0.5 * P.c / Va * q) + P.C_L_delta_e * elevator)

/-- The drag force exactly as the source computes it (line `F_drag = ...`):
note that `CD` is MULTIPLIED by the pitch-rate term. -/
def F_drag (P : MAVParams) (CD q_dynamic Va q elevator : ℝ) : ℝ :=
  q_dynamic * (CD * (P.C_D_q * 0.5 * P.c / Va * q) + P.C_D_delta_e * elevator)

/-- The lift force as the specification states it (refinement target):
`F_lift = q_dyn * (CL + CLq * (c/(2*Va)) * q + CLdeltaE * elevator)`, the
three terms SUMMED inside the parenthesis. -/
def F_lift_claim (P : MAVParams) (CL q_dynamic Va q elevator : ℝ) : ℝ :=
  q_dynamic * (CL + P.C_L_q * (P.c / (2 * Va)) * q + P.C_L_delta_e * elevator)

/-- The drag force as the specification states it (refinement target),
analogous to the lift with `CD` and `CDq`. -/
def F_drag_claim (P : MAVParams) (CD q_dynamic Va q elevator : ℝ) : ℝ :=
  q_dynamic * (CD + P.C_D_q * (P.c / (2 * Va)) * q + P.C_D_delta_e * elevator)

/-- `MavDynamics._motor_thrust_torque(Va, delta_t)`: the propeller
thrust/torque solve. `V_in` is bound exactly as in the source and, exactly
as in the source, never used afterwards. -/
def motor_thrust_torque (P : MAVParams) (Va delta_t : ℝ) : ℝ × ℝ :=
  let _V_in := P.V_max * delta_t
  let a := P.C_Q0 * P.rho * P.D_prop ^ 5 / (2 * Real.pi) ^ 2
  let b := P.C_Q1 * P.rho * P.D_prop ^ 4 * Va / (2 * Real.pi) ^ 2 + P.KQ ^ 2 / P.R_motor
  let c := P.C_Q2 * P.rho * P.D_prop ^ 3 * Va ^ 2 - P.KQ / P.R_motor + P.KQ * P.i0
  let Omega_op := (-b + Real.sqrt (b ^ 2 - 4 * a * c)) / (2 * a)
  let J_op := 2 * Real.pi * Va / (Omega_op * P.D_prop)
  let C_T := P.C_T2 * J_op ^ 2 + P.C_T1 * J_op + P.C_T0
  let C_Q := P.C_Q2 * J_op ^ 2 + P.C_Q1 * J_op + P.C_Q0
  let n := Omega_op / (2 * Real.pi)
  (P.rho * n ^ 2 * P.D_prop ^ 4 * C_T, P.rho * n ^ 2 * P.D_prop ^ 5 * C_Q)

/-- `MavDynamics._forces_moments(delta)`: returns `[fx, fy, fz, Mx, My, Mz]`.
`_eul` (the Euler angles), `f_g` (the gravitational term, a 3x3 array via
numpy elementwise broadcasting of `Rb_i * gvec`) and `thrust_torque`
(the propulsion output) are bound exactly as in the source and, exactly as
in the source, never used in the returned vector. -/
def forces_moments (P : MAVParams) (state : Fin 13 → ℝ) (Va alpha beta : ℝ)
    (delta : ControlInput) : Fin 6 → ℝ :=
  let _eul := Quaternion2Euler ![state 6, state 7, state 8, state 9]
  let p := state 10
  let q := state 11
  let r := state 12
  let sigma_num :=
    1 + Real.exp (-P.M * (alpha - P.alpha0)) + Real.exp (P.M * (alpha + P.alpha0))
  let sigma_denom :=
    (1 + Real.exp (-P.M * (alpha - P.alpha0))) * (1 + Real.exp (P.M * (alpha + P.alpha0)))
  let sigma := sigma_num / sigma_denom
  let Rb_i := Quaternion2Rotation ![state 6, state 7, state 8, state 9]
  let _f_g : Matrix (Fin 3) (Fin 3) ℝ :=
    Matrix.of fun i j => Rb_i i j * (![0, 0, P.mass * P.gravity] i)
  let CL := (1 - sigma) * (P.C_L_0 + P.C_L_alpha * alpha) +
    sigma * 2 * Real.sign alpha * Real.sin alpha ^ 2 * Real.cos alpha
  let CD := P.C_D_p + (P.C_L_0 + P.C_L_alpha * alpha) ^ 2 / (Real.pi * P.e * P.AR)
  let q_dynamic := 0.5 * P.rho * Va ^ 2 * P.S_wing
  let Flift := F_lift P CL q_dynamic Va q delta.elevator
  let Fdrag := F_drag P CD q_dynamic Va q delta.elevator
  let _thrust_torque := motor_thrust_torque P Va delta.throttle
  let fx := -Fdrag * Real.cos alpha + Flift * Real.sin alpha
  let fz := -Fdrag * Real.sin alpha - Flift * Real.cos alpha
  let fy := q_dynamic * (P.C_Y_0 + P.C_Y_beta * beta + P.C_Y_p * 0.5 * P.b * p / Va +
    P.C_Y_r * 0.5 * P.b * r / Va + P.C_Y_delta_a * delta.aileron +
    P.C_Y_delta_r * delta.rudder)
  let My := q_dynamic * P.c * (P.C_m_0 + P.C_m_alpha * alpha +
    P.C_m_q * P.c * 0.5 * q / Va + P.C_m_delta_e * delta.elevator)
  let Mx := q_dynamic * P.b * (P.C_ell_0 + P.C_ell_beta * beta +
    P.C_ell_p * 0.5 * P.b * r / Va + P.C_ell_delta_a * delta.aileron +
    P.C_ell_delta_r * delta.rudder)
  let Mz := q_dynamic * P.b * (P.C_n_0 + P.C_n_beta * beta +
    P.C_n_p * 0.5 * P.b * r / Va + P.C_n_delta_a * delta.aileron +
    P.C_n_delta_r * delta.rudder)
  ![fx, fy, fz, Mx, My, Mz]

/-- The RK4 combination in `MavDynamics.update`: the new `_state` BEFORE
quaternion renormalization. The forces/moments vector `fm` is a parameter:
it is computed once by the caller and used in all four stages. -/
def rk4_state (P : MAVParams) (time_step : ℝ) (state : Fin 13 → ℝ) (fm : Fin 6 → ℝ) :
    Fin 13 → ℝ :=
  let k1 := derivatives P state fm
  let k2 := derivatives P (state + (time_step / 2) • k1) fm
  let k3 := derivatives P (state + (time_step / 2) • k2) fm
  let k4 := derivatives P (state + time_step • k3) fm
  state + (time_step / 6) • (k1 + (2 : ℝ) • k2 + (2 : ℝ) • k3 + k4)

/-- The quaternion renormalization block of `MavDynamics.update`: elements
6..9 are divided by their Euclidean norm; no other element changes. -/
def normalize_quat (s : Fin 13 → ℝ) : Fin 13 → ℝ :=
  fun i =>
    if i = 6 ∨ i = 7 ∨ i = 8 ∨ i = 9 then
      s i / Real.sqrt (s 6 ^ 2 + s 7 ^ 2 + s 8 ^ 2 + s 9 ^ 2)
    else s i

/-- Euclidean norm of the attitude-quaternion block (elements 6..9) of a
13-element state vector. -/
def quatNorm (s : Fin 13 → ℝ) : ℝ :=
  Real.sqrt (s 6 ^ 2 + s 7 ^ 2 + s 8 ^ 2 + s 9 ^ 2)

/-- `MavDynamics._update_true_state()`: the `MsgState` projection, reading
the stored `_wind` for `wn`/`we`. -/
def update_true_state (state : Fin 13 → ℝ) (wind : Fin 3 → ℝ) (Va alpha beta : ℝ) :
    TrueState :=
  let eul := Quaternion2Euler ![state 6, state 7, state 8, state 9]
  let pdot := (Quaternion2Rotation ![state 6, state 7, state 8, state 9]).mulVec
    ![state 3, state 4, state 5]
  let Vg := Real.sqrt (pdot 0 ^ 2 + pdot 1 ^ 2 + pdot 2 ^ 2)
  { north := state 0
    east := state 1
    altitude := -state 2
    Va := Va
    alpha := alpha
    beta := beta
    phi := eul.1
    theta := eul.2.1
    psi := eul.2.2
    Vg := Vg
    gamma := Real.arcsin (pdot 2 / Vg)
    chi := atan2 (pdot 1) (pdot 0)
    p := state 10
    q := state 11
    r := state 12
    wn := wind 0
    we := wind 1 }

/-- `MavDynamics.update(delta, wind)`: forces/moments from the pre-step
state, RK4 integration, quaternion renormalization, velocity-data update
with the new state and the supplied wind, true-state update. The stored
`_wind` member is never written. -/
def update (P : MAVParams) (m : Mav) (delta : ControlInput) (wind : Fin 6 → ℝ) : Mav :=
  let forces_moments_v := forces_moments P m.state m.Va m.alpha m.beta delta
  let s2 := normalize_quat (rk4_state P m.ts_simulation m.state forces_moments_v)
  let vab := update_velocity_data s2 wind
  { m with
    state := s2
    forces := ![forces_moments_v 0, forces_moments_v 1, forces_moments_v 2]
    Va := vab.1
    alpha := vab.2.1
    beta := vab.2.2
    true_state := update_true_state s2 m.wind vab.1 vab.2.1 vab.2.2 }

/-- Modelled from the spec: the default `MsgState()` message (external
`message_types.msg_state`), all fields zero. -/
def zeroTrueState : TrueState :=
  { north := 0, east := 0, altitude := 0, Va := 0, alpha := 0, beta := 0,
    phi := 0, theta := 0, psi := 0, Vg := 0, gamma := 0, chi := 0,
    p := 0, q := 0, r := 0, wn := 0, we := 0 }

/-- `MavDynamics.__init__(Ts)`: initial state from the parameter file,
`_wind` set to zero, and (after the initial `_update_velocity_data` call,
whose results are immediately overwritten) `_Va = u0`, `_alpha = 0`,
`_beta = 0`. -/
def mavInit (P : MAVParams) (Ts : ℝ) : Mav :=
  { ts_simulation := Ts
    state := ![P.north0, P.east0, P.down0, P.u0, P.v0, P.w0,
               P.e0, P.e1, P.e2, P.e3, P.p0, P.q0, P.r0]
    wind := ![0, 0, 0]
    forces := ![0, 0, 0]
    Va := P.u0
    alpha := 0
    beta := 0
    true_state := zeroTrueState }

/-- A sequence of `update` calls folded over an initial instance. -/
def run_updates (P : MAVParams) (m : Mav) (inputs : List (ControlInput × (Fin 6 → ℝ))) :
    Mav :=
  inputs.foldl (fun acc dw => update P acc dw.1 dw.2) m

/-- A concrete parameter table used by witnesses (every field 1). -/
def P0 : MAVParams :=
  { mass := 1, gravity := 1, Jy := 1, gamma1 := 1, gamma2 := 1, gamma3 := 1,
    gamma4 := 1, gamma5 := 1, gamma6 := 1, gamma7 := 1, gamma8 := 1,
    rho := 1, S_wing := 1, c := 1, b := 1, e := 1, AR := 1, M := 1, alpha0 := 1,
    C_L_0 := 1, C_L_alpha := 1, C_L_q := 1, C_L_delta_e := 1,
    C_D_p := 1, C_D_q := 1, C_D_delta_e := 1,
    C_Y_0 := 1, C_Y_beta := 1, C_Y_p := 1, C_Y_r := 1, C_Y_delta_a := 1,
    C_Y_delta_r := 1, C_m_0 := 1, C_m_alpha := 1, C_m_q := 1, C_m_delta_e := 1,
    C_ell_0 := 1, C_ell_beta := 1, C_ell_p := 1, C_ell_delta_a := 1,
    C_ell_delta_r := 1, C_n_0 := 1, C_n_beta := 1, C_n_p := 1,
    C_n_delta_a := 1, C_n_delta_r := 1, V_max := 1, C_Q0 := 1, C_Q1 := 1,
    C_Q2 := 1, C_T0 := 1, C_T1 := 1, C_T2 := 1, D_prop := 1, KQ := 1,
    R_motor := 1, i0 := 1, north0 := 1, east0 := 1, down0 := 1, u0 := 1,
    v0 := 1, w0 := 1, e0 := 1, e1 := 1, e2 := 1, e3 := 1, p0 := 1, q0 := 1,
    r0 := 1 }

/-- A concrete instance used by witnesses: zero step size, unit quaternion
`(1,0,0,0)`, everything else zero. -/
def m0 : Mav :=
  { ts_simulation := 0
    state := ![0, 0, 0, 0, 0, 0, 1, 0, 0, 0, 0, 0, 0]
    wind := ![0, 0, 0]
    forces := ![0, 0, 0]
    Va := 1
    alpha := 0
    beta := 0
    true_state := zeroTrueState }

/-- A concrete zero control input used by witnesses. -/
def delta0 : ControlInput := { aileron := 0, elevator := 0, rudder := 0, throttle := 0 }

/-- A concrete zero six-component wind used by witnesses and by C8. -/
def wind0 : Fin 6 → ℝ := ![0, 0, 0, 0, 0, 0]

/-- The C8 scenario state: zero attitude (quaternion `(1,0,0,0)`), body
velocity `(1,1,0)`, everything else zero. -/
def C8state : Fin 13 → ℝ := ![0, 0, 0, 1, 1, 0, 1, 0, 0, 0, 0, 0, 0]

/-- Helper: an RK4 step with zero step size leaves the state unchanged. -/
theorem rk4_state_zero_dt (P : MAVParams) (s : Fin 13 → ℝ) (fm : Fin 6 → ℝ) :
    rk4_state P 0 s fm = s := by
  unfold rk4_state
  simp

/-- C1: one call to `update` advances the 13-element state by classical RK4
with stages `k1..k4` all evaluated at the SAME forces/moments vector `fm`,
computed once from the pre-step state, and the new state before quaternion
renormalization is `state + dt/6*(k1 + 2*k2 + 2*k3 + k4)`. -/
theorem update_is_classical_rk4 (P : MAVParams) (m : Mav) (delta : ControlInput)
    (wind : Fin 6 → ℝ) :
    let fm := forces_moments P m.state m.Va m.alpha m.beta delta
    let dt := m.ts_simulation
    let k1 := derivatives P m.state fm
    let k2 := derivatives P (m.state + (dt / 2) • k1) fm
    let k3 := derivatives P (m.state + (dt / 2) • k2) fm
    let k4 := derivatives P (m.state + dt • k3) fm
    rk4_state P dt m.state fm =
        m.state + (dt / 6) • (k1 + (2 : ℝ) • k2 + (2 : ℝ) • k3 + k4) ∧
      (update P m delta wind).state = normalize_quat (rk4_state P dt m.state fm) :=
  ⟨rfl, rfl⟩

/-- C5: after `_update_velocity_data`, `Va` is the Euclidean norm of the
relative wind `(ur, vr, wr)`, the angle of attack is `atan(wr/ur)` when
`ur` is nonzero and exactly 0 when `ur = 0`, and the sideslip is
`asin(vr/Va)` when `Va` is nonzero and exactly 0 when `Va = 0`; no other
guard or branch alters these values. -/
theorem velocity_data_guards (state : Fin 13 → ℝ) (wind : Fin 6 → ℝ) :
    (update_velocity_data state wind).1 =
        Real.sqrt (relWind state wind 0 ^ 2 + relWind state wind 1 ^ 2 +
          relWind state wind 2 ^ 2) ∧
      (update_velocity_data state wind).2.1 =
        (if relWind state wind 0 = 0 then 0
         else Real.arctan (relWind state wind 2 / relWind state wind 0)) ∧
      (update_velocity_data state wind).2.2 =
        (if Real.sqrt (relWind state wind 0 ^ 2 + relWind state wind 1 ^ 2 +
              relWind state wind 2 ^ 2) = 0 then 0
         else Real.arcsin (relWind state wind 1 /
           Real.sqrt (relWind state wind 0 ^ 2 + relWind state wind 1 ^ 2 +
             relWind state wind 2 ^ 2))) :=
  ⟨rfl, rfl, rfl⟩

/-- C7: for every fixed airspeed and any two throttle commands in [0,1],
`_motor_thrust_torque` returns identical (thrust, torque) pairs: the input
voltage `V_in = V_max * delta_t` is bound but never used, so the output
does not depend on the throttle at all. -/
theorem motor_output_ignores_throttle (P : MAVParams) (Va t1 t2 : ℝ)
    (h1 : 0 ≤ t1) (h2 : t1 ≤ 1) (h3 : 0 ≤ t2) (h4 : t2 ≤ 1) :
    motor_thrust_torque P Va t1 = motor_thrust_torque P Va t2 := rfl

/-- Witness for C7 at throttle commands 0 and 1. -/
theorem motor_output_ignores_throttle_witness :
    (0 : ℝ) ≤ 0 ∧ (0 : ℝ) ≤ 1 ∧
      motor_thrust_torque P0 1 0 = motor_thrust_torque P0 1 1 :=
  ⟨le_refl 0, zero_le_one,
    motor_output_ignores_throttle P0 1 0 1 (le_refl 0) zero_le_one zero_le_one (le_refl 1)⟩

/-- C9: for fixed airspeed, the thrust returned by `_motor_thrust_torque`
is non-decreasing in the throttle over [0,1] (indeed it is constant in the
throttle). -/
theorem motor_thrust_monotone_in_throttle (P : MAVParams) (Va t1 t2 : ℝ)
    (h0 : 0 ≤ t1) (h12 : t1 ≤ t2) (h21 : t2 ≤ 1) :
    (motor_thrust_torque P Va t1).1 ≤ (motor_thrust_torque P Va t2).1 :=
  le_of_eq rfl

/-- Witness for C9 at throttle commands 0 and 1. -/
theorem motor_thrust_monotone_in_throttle_witness :
    (0 : ℝ) ≤ 0 ∧ (0 : ℝ) ≤ 1 ∧
      (motor_thrust_torque P0 1 0).1 ≤ (motor_thrust_torque P0 1 1).1 :=
  ⟨le_refl 0, zero_le_one,
    motor_thrust_monotone_in_throttle P0 1 0 1 (le_refl 0) zero_le_one (le_refl 1)⟩

/-- C4: the gravitational force is NOT included in the net force components
returned by `_forces_moments`: the returned six-vector is unchanged under
any change of the gravity constant (the body-frame gravity term `f_g` is
computed but never added to `fx`, `fy`, `fz`). -/
theorem forces_moments_ignores_gravity (P : MAVParams) (g1 g2 : ℝ)
    (state : Fin 13 → ℝ) (Va alpha beta : ℝ) (delta : ControlInput) :
    forces_moments { P with gravity := g1 } state Va alpha beta delta =
      forces_moments { P with gravity := g2 } state Va alpha beta delta := rfl

/-- C6: the propulsion output is NOT included in the six-vector returned by
`_forces_moments`: the result is unchanged under any change of every
propulsion constant (`V_max`, `C_Q0..2`, `C_T0..2`, `D_prop`, `KQ`,
`R_motor`, `i0`), because `thrust_prop`/`torque_prop` are computed but never
added to the force or moment components. -/
theorem forces_moments_ignores_propulsion (P : MAVParams)
    (vmax cq0 cq1 cq2 ct0 ct1 ct2 dprop kq rmot izero : ℝ)
    (state : Fin 13 → ℝ) (Va alpha beta : ℝ) (delta : ControlInput) :
    forces_moments
        { P with
          V_max := vmax
          C_Q0 := cq0
          C_Q1 := cq1
          C_Q2 := cq2
          C_T0 := ct0
          C_T1 := ct1
          C_T2 := ct2
          D_prop := dprop
          KQ := kq
          R_motor := rmot
          i0 := izero } state Va alpha beta delta =
      forces_moments P state Va alpha beta delta := rfl

/-- C3: the lift/drag computed by the source MULTIPLY the coefficient by the
pitch-rate term instead of summing: at zero pitch rate and zero elevator the
source lift and drag are identically 0, while the claimed (summed) formulas
give `q_dyn*CL` and `q_dyn*CD`. -/
theorem lift_drag_multiply_not_sum (P : MAVParams) (CL CD q_dynamic Va : ℝ) :
    F_lift P CL q_dynamic Va 0 0 = 0 ∧
      F_drag P CD q_dynamic Va 0 0 = 0 ∧
      F_lift_claim P CL q_dynamic Va 0 0 = q_dynamic * CL ∧
      F_drag_claim P CD q_dynamic Va 0 0 = q_dynamic * CD := by
  refine ⟨?_, ?_, ?_, ?_⟩ <;>
    simp [F_lift, F_drag, F_lift_claim, F_drag_claim]

/-- C2: immediately after `update` returns, if the post-integration (pre
normalization) quaternion components have nonzero Euclidean norm, then the
attitude quaternion (state elements 6..9) has Euclidean norm exactly 1, in
particular within tolerance 1e-9; this applies to every `update` call in any
sequence of calls. -/
theorem quat_norm_one_after_update (P : MAVParams) (m : Mav) (delta : ControlInput)
    (wind : Fin 6 → ℝ)
    (h : quatNorm (rk4_state P m.ts_simulation m.state
        (forces_moments P m.state m.Va m.alpha m.beta delta)) ≠ 0) :
    quatNorm ((update P m delta wind).state) = 1 := by
  set s1 := rk4_state P m.ts_simulation m.state
      (forces_moments P m.state m.Va m.alpha m.beta delta) with hs1
  have hupd : (update P m delta wind).state = normalize_quat s1 := rfl
  rw [hupd]
  have hS : (0 : ℝ) ≤ s1 6 ^ 2 + s1 7 ^ 2 + s1 8 ^ 2 + s1 9 ^ 2 := by positivity
  have hq2 : quatNorm s1 ^ 2 = s1 6 ^ 2 + s1 7 ^ 2 + s1 8 ^ 2 + s1 9 ^ 2 :=
    Real.sq_sqrt hS
  have h6 : normalize_quat s1 6 = s1 6 / quatNorm s1 := by
    unfold normalize_quat quatNorm
    simp
  have h7 : normalize_quat s1 7 = s1 7 / quatNorm s1 := by
    unfold normalize_quat quatNorm
    simp
  have h8 : normalize_quat s1 8 = s1 8 / quatNorm s1 := by
    unfold normalize_quat quatNorm
    simp
  have h9 : normalize_quat s1 9 = s1 9 / quatNorm s1 := by
    unfold normalize_quat quatNorm
    simp
  show Real.sqrt (normalize_quat s1 6 ^ 2 + normalize_quat s1 7 ^ 2 +
      normalize_quat s1 8 ^ 2 + normalize_quat s1 9 ^ 2) = 1
  rw [h6, h7, h8, h9]
  have hsum : (s1 6 / quatNorm s1) ^ 2 + (s1 7 / quatNorm s1) ^ 2 +
      (s1 8 / quatNorm s1) ^ 2 + (s1 9 / quatNorm s1) ^ 2 = 1 := by
    field_simp
    linarith [hq2]
  rw [hsum, Real.sqrt_one]

/-- Witness for C2: a concrete `update` call (zero step size, unit initial
quaternion) whose pre-normalization quaternion norm is nonzero and whose
post-update quaternion norm is 1. -/
theorem quat_norm_one_after_update_witness :
    quatNorm (rk4_state P0 m0.ts_simulation m0.state
        (forces_moments P0 m0.state m0.Va m0.alpha m0.beta delta0)) ≠ 0 ∧
      quatNorm ((update P0 m0 delta0 wind0).state) = 1 := by
  have hts : m0.ts_simulation = (0 : ℝ) := rfl
  have h : quatNorm (rk4_state P0 m0.ts_simulation m0.state
      (forces_moments P0 m0.state m0.Va m0.alpha m0.beta delta0)) ≠ 0 := by
    rw [hts, rk4_state_zero_dt]
    have h6 : m0.state 6 = 1 := rfl
    have h7 : m0.state 7 = 0 := rfl
    have h8 : m0.state 8 = 0 := rfl
    have h9 : m0.state 9 = 0 := rfl
    unfold quatNorm
    rw [h6, h7, h8, h9]
    rw [show (1 : ℝ) ^ 2 + 0 ^ 2 + 0 ^ 2 + 0 ^ 2 = 1 by norm_num, Real.sqrt_one]
    exact one_ne_zero
  exact ⟨h, quat_norm_one_after_update P0 m0 delta0 wind0 h⟩

/-- C8: with zero attitude, body velocity (1,1,0) and zero wind, the derived
air data satisfies `Va = sqrt 2`, `alpha = 0` and `beta = asin (1/sqrt 2)`. -/
theorem symmetric_lateral_velocity :
    (update_velocity_data C8state wind0).1 = Real.sqrt 2 ∧
      (update_velocity_data C8state wind0).2.1 = 0 ∧
      (update_velocity_data C8state wind0).2.2 = Real.arcsin (1 / Real.sqrt 2) := by
  have hrel : relWind C8state wind0 = ![(1 : ℝ), 1, 0] := by
    show (![C8state 3, C8state 4, C8state 5] -
        ((Quaternion2Rotation ![C8state 6, C8state 7, C8state 8, C8state 9]).mulVec
          ![wind0 0, wind0 1, wind0 2] + ![wind0 3, wind0 4, wind0 5])) = ![(1 : ℝ), 1, 0]
    have hsteady : (![wind0 0, wind0 1, wind0 2] : Fin 3 → ℝ) = 0 := by
      funext j; fin_cases j <;> rfl
    have hgust : (![wind0 3, wind0 4, wind0 5] : Fin 3 → ℝ) = 0 := by
      funext j; fin_cases j <;> rfl
    rw [hsteady, hgust, Matrix.mulVec_zero, add_zero, sub_zero]
    funext j; fin_cases j <;> rfl
  have c0 : (![(1 : ℝ), 1, 0] : Fin 3 → ℝ) 0 = 1 := rfl
  have c1 : (![(1 : ℝ), 1, 0] : Fin 3 → ℝ) 1 = 1 := rfl
  have c2 : (![(1 : ℝ), 1, 0] : Fin 3 → ℝ) 2 = 0 := rfl
  refine ⟨?_, ?_, ?_⟩
  · show Real.sqrt (relWind C8state wind0 0 ^ 2 + relWind C8state wind0 1 ^ 2 +
        relWind C8state wind0 2 ^ 2) = Real.sqrt 2
    rw [hrel, c0, c1, c2]
    norm_num
  · show (if relWind C8state wind0 0 = 0 then (0 : ℝ)
        else Real.arctan (relWind C8state wind0 2 / relWind C8state wind0 0)) = 0
    rw [hrel, c0, c2, if_neg one_ne_zero]
    simp [Real.arctan_zero]
  · show (if Real.sqrt (relWind C8state wind0 0 ^ 2 + relWind C8state wind0 1 ^ 2 +
          relWind C8state wind0 2 ^ 2) = 0 then (0 : ℝ)
        else Real.arcsin (relWind C8state wind0 1 /
          Real.sqrt (relWind C8state wind0 0 ^ 2 + relWind C8state wind0 1 ^ 2 +
            relWind C8state wind0 2 ^ 2))) = Real.arcsin (1 / Real.sqrt 2)
    rw [hrel, c0, c1, c2]
    rw [show (1 : ℝ) ^ 2 + 1 ^ 2 + 0 ^ 2 = 2 by norm_num]
    rw [if_neg (Real.sqrt_ne_zero'.mpr (by norm_num))]

/-- Helper: a fold of `update` calls never writes the stored wind, and it
propagates zero `wn`/`we` in the true-state view. -/
theorem run_updates_wind_invariant (P : MAVParams)
    (inputs : List (ControlInput × (Fin 6 → ℝ))) :
    ∀ m : Mav, m.wind = ![0, 0, 0] → m.true_state.wn = 0 → m.true_state.we = 0 →
      (run_updates P m inputs).wind = ![0, 0, 0] ∧
        (run_updates P m inputs).true_state.wn = 0 ∧
        (run_updates P m inputs).true_state.we = 0 := by
  induction inputs with
  | nil => exact fun m h1 h2 h3 => ⟨h1, h2, h3⟩
  | cons dw rest ih =>
    intro m h1 h2 h3
    have hw : (update P m dw.1 dw.2).wind = ![0, 0, 0] := h1
    have hwn : (update P m dw.1 dw.2).true_state.wn = 0 := by
      show m.wind 0 = 0
      rw [h1]
      rfl
    have hwe : (update P m dw.1 dw.2).true_state.we = 0 := by
      show m.wind 1 = 0
      rw [h1]
      rfl
    exact ih (update P m dw.1 dw.2) hw hwn hwe

/-- C10: over any sequence of `update` calls with any wind arguments, the
stored wind vector keeps its construction-time value (0,0,0) and the
true-state fields `wn` and `we` are always 0. -/
theorem wind_stays_zero (P : MAVParams) (Ts : ℝ)
    (inputs : List (ControlInput × (Fin 6 → ℝ))) :
    (run_updates P (mavInit P Ts) inputs).wind = ![0, 0, 0] ∧
      (run_updates P (mavInit P Ts) inputs).true_state.wn = 0 ∧
      (run_updates P (mavInit P Ts) inputs).true_state.we = 0 :=
  run_updates_wind_invariant P inputs (mavInit P Ts) rfl rfl rfl

end
